import Mathlib

/-!
Shallow embedding of the Anime1LocalServer core (src/main.py and
src/fastapi_impl/main.py) and proofs about the frozen claims.

The embedding models the pure, decision-making parts of the code directly:
HTML field extraction (BeautifulSoup) and URL parsing (urllib) are stdlib
operations whose outputs appear here as already-extracted inputs (for
example a document is a `Soup` record of the fields the code reads, and a
URL enters as its already-parsed hostname).  Network calls are oracles
passed in as explicit arguments.  Python `dict`s are insertion-ordered
association lists, matching CPython semantics, including the fact that
deleting a key during `dict.items()` iteration makes the next iteration
step raise `RuntimeError`.
-/

namespace Anime1

/-- One playable post, mirroring the frozen dataclass `VideoPost`
(src/main.py lines 21-31). `order` comes from a leading `[N]` marker in the
title, hence a natural number when present. -/
structure VideoPost where
  post_id : String
  title : String
  order : Option Nat
  datetime : String
  category_id : String
  video_id : String
  thumbnails_server : String
  api_data : String
  next_post_id : Option String
deriving DecidableEq, Repr

/-- Mirrors the frozen dataclass `VideoCategory` (src/main.py lines 34-38). -/
structure VideoCategory where
  category_id : String
  title : String
  posts : List VideoPost
deriving DecidableEq, Repr

/-- Mirrors the frozen dataclass `Video` (src/main.py lines 52-57): a
resolved backing video. `cookies` is the response cookie jar as name/value
pairs; `expire` is epoch seconds (already offset by 5 in `_get_video`). -/
structure Video where
  url : String
  type : String
  cookies : List (String × String)
  expire : Int
deriving DecidableEq, Repr

/-- Sort key used by `posts.sort(key=lambda i: i.order)` in
`_parse_video_posts`; on the branch where it runs every post has
`order = some n`, so the default is never observed. -/
def postOrderKey (p : VideoPost) : Nat := p.order.getD 0

/-- The ordering step of `Anime1API._parse_video_posts` (src/main.py lines
153-187, identical in src/fastapi_impl/main.py lines 100-135): the loop
over `article` elements produces `articles` in document order and sets
`all_has_order` to whether every title yielded an order marker; then the
list is stably sorted ascending by order if all posts have one, and
reversed otherwise.  Python `list.sort` is a stable merge sort, modelled by
`List.mergeSort`. -/
def parse_video_posts (articles : List VideoPost) : List VideoPost :=
  if articles.all (fun p => p.order.isSome) then
    articles.mergeSort (fun a b => decide (postOrderKey a ≤ postOrderKey b))
  else
    articles.reverse

/-- C1: for every parsed page, if every extracted post carries an order
value then the resulting post sequence is non-decreasing in that order
value, and if at least one post lacks an order value then the resulting
sequence is the exact reverse of document order. -/
theorem parse_video_posts_ordering (articles : List VideoPost) :
    ((∀ p ∈ articles, p.order.isSome) →
      (parse_video_posts articles).Pairwise
        (fun a b => postOrderKey a ≤ postOrderKey b))
    ∧ ((∃ p ∈ articles, p.order = none) →
      parse_video_posts articles = articles.reverse) := by
  constructor
  · intro h
    have hall : articles.all (fun p => p.order.isSome) = true := by
      simpa [List.all_eq_true] using h
    rw [parse_video_posts, if_pos hall]
    refine List.Pairwise.imp ?_ (List.sorted_mergeSort ?_ ?_ articles)
    · intro a b hab
      simpa using hab
    · intro a b c hab hbc
      simp only [decide_eq_true_eq] at *
      omega
    · intro a b
      simp only [Bool.or_eq_true, decide_eq_true_eq]
      omega
  · intro h
    obtain ⟨p, hp, hnone⟩ := h
    have hall : articles.all (fun p => p.order.isSome) = false := by
      simp only [List.all_eq_false]
      exact ⟨p, hp, by simp [hnone]⟩
    rw [parse_video_posts, hall]
    simp

/-- Demo post used in witnesses: title `[2] B` with order marker 2. -/
def demoPostOrd2 : VideoPost :=
  { post_id := "101", title := "[2] B", order := some 2, datetime := "d1"
  , category_id := "9", video_id := "v1", thumbnails_server := "t"
  , api_data := "a1", next_post_id := none }

/-- Demo post used in witnesses: title `[1] A` with order marker 1. -/
def demoPostOrd1 : VideoPost :=
  { post_id := "102", title := "[1] A", order := some 1, datetime := "d2"
  , category_id := "9", video_id := "v2", thumbnails_server := "t"
  , api_data := "a2", next_post_id := some "101" }

/-- Demo post used in witnesses: no order marker in the title. -/
def demoPostNoOrd : VideoPost :=
  { post_id := "103", title := "C", order := none, datetime := "d3"
  , category_id := "9", video_id := "v3", thumbnails_server := "t"
  , api_data := "a3", next_post_id := none }

/-- Witness for C1 at concrete inputs: a page whose posts all carry order
markers comes out sorted, and a page with an unmarked post comes out
exactly reversed. -/
theorem parse_video_posts_ordering_witness :
    (parse_video_posts [demoPostOrd2, demoPostOrd1]).Pairwise
      (fun a b => postOrderKey a ≤ postOrderKey b)
    ∧ parse_video_posts [demoPostOrd1, demoPostNoOrd]
        = [demoPostNoOrd, demoPostOrd1] := by
  constructor
  · exact (parse_video_posts_ordering [demoPostOrd2, demoPostOrd1]).1
      (by intro p hp; fin_cases hp <;> rfl)
  · have h := (parse_video_posts_ordering [demoPostOrd1, demoPostNoOrd]).2
      ⟨demoPostNoOrd, by simp, rfl⟩
    simpa using h

/-- The video cache `self._video_cache  : dict[str, Video]`, modelled as an
insertion-ordered association list (CPython dicts preserve insertion
order). -/
abbrev Cache := List (String × Video)

/-- `post_id in self._video_cache` / `self._video_cache[post_id]`. -/
def cacheLookup (c : Cache) (k : String) : Option Video :=
  List.lookup k c

/-- `del self._video_cache[post_id]`. -/
def cacheDelete (c : Cache) (k : String) : Cache :=
  c.filter (fun e => e.1 != k)

/-- `self._video_cache[post_id] = video`: replace in place when the key is
present, append otherwise. -/
def cacheInsert (c : Cache) (k : String) (v : Video) : Cache :=
  if c.any (fun e => e.1 == k) then
    c.map (fun e => if e.1 == k then (k, v) else e)
  else
    c ++ [(k, v)]

/-- The sweep loop of `Anime1Server._get_video` (src/main.py lines
520-522):

`for k, v in self._video_cache.items(): if v.expire >= current_time: del ...`

CPython raises `RuntimeError: dictionary changed size during iteration` on
the first `next()` after a deletion, so the loop either finishes without
deleting anything (no entry satisfies `expire >= current_time`) or deletes
exactly the first such entry and raises.  The `Bool` is true when the loop
raised. -/
def cacheSweep : Cache → Int → Cache × Bool
  | [], _ => ([], false)
  | e :: rest, now =>
    if now ≤ e.2.expire then
      (rest, true)
    else
      let r := cacheSweep rest now
      (e :: r.1, r.2)

/-- Errors that can escape `Anime1Server._get_video`: the
`ValueError` raised when upstream resolution yields no video (the
spec's `UnknownVideo`), and the `RuntimeError` raised by the sweep when it
mutates the dict during iteration. -/
inductive GetVideoError where
  | unknownVideo
  | runtimeError
deriving DecidableEq, Repr

/-- Observable outcome of one `_get_video` call: the returned video or the
raised error, the cache state afterwards, and whether the upstream client
(`get_video_by_post_id`) was invoked. -/
structure GetVideoOut where
  result : Except GetVideoError Video
  cache : Cache
  upstreamCalled : Bool
deriving Repr

/-- `Anime1Server._CACHE_CLEAN_SIZE` (src/main.py line 337). -/
def CACHE_CLEAN_SIZE : Nat := 128

/-- One call of `Anime1Server._get_video(post_id)` (src/main.py lines
506-523, identical in src/fastapi_impl/main.py lines 400-417) as a step
function.  `now` is `time.time()`; `resolve` is the oracle for the network
call `self._api.get_video_by_post_id(post_id)` (`none` when the post fetch
yields no post).  The sweep runs only when control reaches line 519, i.e.
not when the `ValueError` was raised first. -/
def getVideoStep (cache : Cache) (now : Int) (resolve : Option Video)
    (postId : String) : GetVideoOut :=
  match cacheLookup cache postId with
  | some v =>
    if v.expire ≤ now then
      let c1 := cacheDelete cache postId
      match resolve with
      | none => ⟨.error .unknownVideo, c1, true⟩
      | some w =>
        let c2 := cacheInsert c1 postId w
        let s := if c2.length > CACHE_CLEAN_SIZE then cacheSweep c2 now else (c2, false)
        ⟨if s.2 then .error .runtimeError else .ok w, s.1, true⟩
    else
      let s := if cache.length > CACHE_CLEAN_SIZE then cacheSweep cache now else (cache, false)
      ⟨if s.2 then .error .runtimeError else .ok v, s.1, false⟩
  | none =>
    match resolve with
    | none => ⟨.error .unknownVideo, cache, true⟩
    | some w =>
      let c2 := cacheInsert cache postId w
      let s := if c2.length > CACHE_CLEAN_SIZE then cacheSweep c2 now else (c2, false)
      ⟨if s.2 then .error .runtimeError else .ok w, s.1, true⟩

theorem cacheLookup_cacheDelete_self (c : Cache) (k : String) :
    cacheLookup (cacheDelete c k) k = none := by
  rw [cacheLookup, cacheDelete, List.lookup_eq_none_iff]
  intro p hp
  have h1 : p.1 ≠ k := by simpa using List.of_mem_filter hp
  simpa using Ne.symm h1

theorem lookup_map_replace (c : Cache) (k : String) (v : Video)
    (h : c.any (fun e => e.1 == k) = true) :
    List.lookup k (c.map (fun e => if e.1 == k then (k, v) else e)) = some v := by
  induction c with
  | nil => simp at h
  | cons e rest ih =>
    rcases e with ⟨k0, v0⟩
    by_cases hk : k0 = k
    · simp [hk]
    · have hb : ((k0, v0).1 == k) = false := by simp [hk]
      have h2 : rest.any (fun e => e.1 == k) = true := by
        simp only [List.any_cons, hb, Bool.false_or] at h
        exact h
      have hkb : (k == k0) = false := by simp [Ne.symm hk]
      simp only [List.map_cons, hb, Bool.false_eq_true, if_false, List.lookup_cons, hkb]
      exact ih h2

theorem lookup_append_self (c : Cache) (k : String) (v : Video)
    (h : c.any (fun e => e.1 == k) = false) :
    List.lookup k (c ++ [(k, v)]) = some v := by
  have hnone : List.lookup k c = none := by
    rw [List.lookup_eq_none_iff]
    intro p hp
    by_cases hpk : p.1 = k
    · have : c.any (fun e => e.1 == k) = true := by
        simp only [List.any_eq_true]
        exact ⟨p, hp, by simp [hpk]⟩
      rw [this] at h
      cases h
    · simpa using Ne.symm hpk
  rw [List.lookup_append, hnone]
  simp

theorem cacheLookup_cacheInsert_self (c : Cache) (k : String) (v : Video) :
    cacheLookup (cacheInsert c k v) k = some v := by
  unfold cacheInsert cacheLookup
  by_cases hany : c.any (fun e => e.1 == k) = true
  · simp only [if_pos hany]
    exact lookup_map_replace c k v hany
  · simp only [if_neg hany]
    exact lookup_append_self c k v (by rwa [Bool.not_eq_true] at hany)

theorem cacheDelete_length_le (c : Cache) (k : String) :
    (cacheDelete c k).length ≤ c.length :=
  List.length_filter_le _ c

theorem cacheInsert_length_le (c : Cache) (k : String) (v : Video) :
    (cacheInsert c k v).length ≤ c.length + 1 := by
  unfold cacheInsert
  split
  · simp
  · simp

/-- C2 (amended): the cache algorithm of `_get_video` behaves as specified
whenever the table stays below the sweep threshold: a cached entry with
`expire > now` is returned as-is with no upstream call and no cache change;
a cached entry with `expire <= now` is removed, the fresh resolution is
stored under the post id and returned; and any returned video is either
not yet expired or came fresh from the upstream client, so an expired
cache entry is never returned. -/
theorem getVideoStep_contract (cache : Cache) (now : Int) (resolve : Option Video)
    (postId : String) (hsz : cache.length < CACHE_CLEAN_SIZE) :
    (∀ v, cacheLookup cache postId = some v → now < v.expire →
      getVideoStep cache now resolve postId = ⟨.ok v, cache, false⟩)
    ∧ (∀ v w, cacheLookup cache postId = some v → v.expire ≤ now → resolve = some w →
      (getVideoStep cache now resolve postId).result = .ok w
      ∧ cacheLookup (getVideoStep cache now resolve postId).cache postId = some w
      ∧ (getVideoStep cache now resolve postId).upstreamCalled = true)
    ∧ (∀ v, (getVideoStep cache now resolve postId).result = .ok v →
      now < v.expire ∨ resolve = some v) := by
  refine ⟨?_, ?_, ?_⟩
  · intro v hv hnow
    have hnle : ¬ v.expire ≤ now := by omega
    have hlen : ¬ cache.length > CACHE_CLEAN_SIZE := by omega
    simp [getVideoStep, hv, hnle, hlen]
  · intro v w hv hexp hres
    have hlen : ¬ (cacheInsert (cacheDelete cache postId) postId w).length > CACHE_CLEAN_SIZE := by
      have h1 := cacheDelete_length_le cache postId
      have h2 := cacheInsert_length_le (cacheDelete cache postId) postId w
      omega
    simp [getVideoStep, hv, hexp, hres, hlen, cacheLookup_cacheInsert_self]
  · intro v hres
    cases hcl : cacheLookup cache postId with
    | none =>
      cases hre : resolve with
      | none => simp [getVideoStep, hcl, hre] at hres
      | some w =>
        have hlen : ¬ (cacheInsert cache postId w).length > CACHE_CLEAN_SIZE := by
          have h2 := cacheInsert_length_le cache postId w
          omega
        simp [getVideoStep, hcl, hre, hlen] at hres
        cases hres
        exact Or.inr rfl
    | some u =>
      by_cases hexp : u.expire ≤ now
      · cases hre : resolve with
        | none => simp [getVideoStep, hcl, hexp, hre] at hres
        | some w =>
          have hlen : ¬ (cacheInsert (cacheDelete cache postId) postId w).length > CACHE_CLEAN_SIZE := by
            have h1 := cacheDelete_length_le cache postId
            have h2 := cacheInsert_length_le (cacheDelete cache postId) postId w
            omega
          simp [getVideoStep, hcl, hexp, hre, hlen] at hres
          cases hres
          exact Or.inr rfl
      · have hlen : ¬ cache.length > CACHE_CLEAN_SIZE := by omega
        simp [getVideoStep, hcl, hexp, hlen] at hres
        cases hres
        exact Or.inl (by omega)

/-- A resolved video that is still valid at time 0 (expires at 100). -/
def demoValidVideo : Video :=
  { url := "https://v.anime1.me/demo.mp4", type := "video/mp4"
  , cookies := [("e", "105")], expire := 100 }

/-- A resolved video that already expired at time 0. -/
def demoExpiredVideo : Video :=
  { url := "https://v.anime1.me/old.mp4", type := "video/mp4"
  , cookies := [("e", "-5")], expire := -10 }

/-- A freshly resolved video, valid at time 0. -/
def demoFreshVideo : Video :=
  { url := "https://v.anime1.me/new.mp4", type := "video/mp4"
  , cookies := [("e", "105")], expire := 100 }

/-- A cache holding 129 entries, all still valid at time 0. -/
def bigValidCache : Cache :=
  (List.range 129).map (fun i => (Nat.repr i, demoValidVideo))

set_option maxRecDepth 100000 in
/-- Counterexample to C2 as stated: with 129 cached entries, a lookup of
post id `0` finds a cached video whose `expire` (100) is strictly greater
than the current time (0), yet `_get_video` does not return it: the
over-threshold sweep deletes an entry during `dict.items()` iteration and
raises `RuntimeError`.  No upstream call happens either. -/
theorem getVideoStep_valid_hit_crash_cex :
    cacheLookup bigValidCache "0" = some demoValidVideo
    ∧ (0 : Int) < demoValidVideo.expire
    ∧ (getVideoStep bigValidCache 0 none "0").result = .error .runtimeError
    ∧ (getVideoStep bigValidCache 0 none "0").upstreamCalled = false :=
  ⟨rfl, by decide, rfl, rfl⟩

/-- Witness for C2 (amended) at a concrete input: one valid cached entry,
below the threshold, is returned unchanged with no upstream call. -/
theorem getVideoStep_contract_witness :
    getVideoStep [("p", demoValidVideo)] 0 none "p"
      = ⟨.ok demoValidVideo, [("p", demoValidVideo)], false⟩ :=
  (getVideoStep_contract [("p", demoValidVideo)] 0 none "p" (by decide)).1
    demoValidVideo rfl (by decide)

/-- A cache of 128 entries expired at time 0 followed by one entry
(`old`) that is still valid. -/
def sweepCacheCex : Cache :=
  (List.range 128).map (fun i => (Nat.repr i, demoExpiredVideo)) ++ [("old", demoValidVideo)]

set_option maxRecDepth 100000 in
/-- C3 evaluated at the failing input: resolving uncached post `new` pushes
the table to 130 entries, so the sweep runs; it deletes the first entry
with `expire >= now` (`old`) and then raises `RuntimeError`, so the call
fails instead of returning the resolved video, and the still-valid entry
`new` survives the sweep (not every valid entry is removed). -/
theorem getVideoStep_sweep_raises :
    (getVideoStep sweepCacheCex 0 (some demoFreshVideo) "new").result
      = .error .runtimeError
    ∧ cacheLookup (getVideoStep sweepCacheCex 0 (some demoFreshVideo) "new").cache "new"
      = some demoFreshVideo
    ∧ (0 : Int) < demoFreshVideo.expire :=
  ⟨rfl, rfl, by decide⟩

/-- C9: when the cached entry for the post id (if any) is expired and the
upstream post fetch yields no post, `_get_video` raises the unknown-video
`ValueError`, the upstream client was consulted exactly once, and the
cache holds no entry for that post id afterwards. -/
theorem getVideoStep_unknownVideo (cache : Cache) (now : Int) (postId : String)
    (h : ∀ v, cacheLookup cache postId = some v → v.expire ≤ now) :
    (getVideoStep cache now none postId).result = .error .unknownVideo
    ∧ cacheLookup (getVideoStep cache now none postId).cache postId = none
    ∧ (getVideoStep cache now none postId).upstreamCalled = true := by
  cases hcl : cacheLookup cache postId with
  | none => simp [getVideoStep, hcl]
  | some v =>
    have hexp := h v hcl
    simp [getVideoStep, hcl, hexp, cacheLookup_cacheDelete_self]

/-- Witness for C9 at a concrete input: an expired entry for post `p` and a
failing post fetch leave no cache entry and raise the unknown-video
error. -/
theorem getVideoStep_unknownVideo_witness :
    (getVideoStep [("p", demoExpiredVideo)] 0 none "p").result = .error .unknownVideo
    ∧ cacheLookup (getVideoStep [("p", demoExpiredVideo)] 0 none "p").cache "p" = none :=
  ⟨(getVideoStep_unknownVideo [("p", demoExpiredVideo)] 0 "p"
      (by
        intro v hv
        have hv2 : some demoExpiredVideo = some v := hv
        injection hv2 with h2
        subst h2
        decide)).1,
   (getVideoStep_unknownVideo [("p", demoExpiredVideo)] 0 "p"
      (by
        intro v hv
        have hv2 : some demoExpiredVideo = some v := hv
        injection hv2 with h2
        subst h2
        decide)).2.1⟩

/-- `Anime1API._MAIN_HOST` (src/main.py line 71). -/
def MAIN_HOST : String := "anime1.me"

/-- Python `str.endswith`, on the character lists of the strings. -/
def strEndsWith (s suffix : String) : Bool :=
  List.isSuffixOf suffix.data s.data

/-- `Anime1API.is_valid_posts_url` (src/main.py lines 218-224): the input
URL enters as its `urllib.parse.urlparse(url).hostname` (`none` covers both
a URL with no hostname and the swallowed `AttributeError`, which the
`except` clause turns into `False`). -/
def is_valid_posts_url (hostname : Option String) : Bool :=
  match hostname with
  | none => false
  | some h => strEndsWith h MAIN_HOST

/-- Errors raised by `Anime1Server.parse_url`: `ValueError("Invalid url")`
and `ValueError("Unknown url type")`. -/
inductive UrlParseError where
  | invalidUrl
  | unknownUrlType
deriving DecidableEq, Repr

/-- `Anime1Server.parse_url` (src/main.py lines 414-420, identical guard in
src/fastapi_impl/main.py lines 313-319) up to the point the claims are
about: the host check, then the page fetch.  `fetch` is the oracle for the
network call `self._api.get_video_posts(url)` and the success payload is
the classified page; the `Bool` records whether the fetch was reached
(network I/O happened). -/
def parse_url (hostname : Option String) (fetch : Option (VideoCategory ⊕ VideoPost)) :
    Except UrlParseError (VideoCategory ⊕ VideoPost) × Bool :=
  if is_valid_posts_url hostname then
    match fetch with
    | none => (.error .unknownUrlType, true)
    | some r => (.ok r, true)
  else
    (.error .invalidUrl, false)

/-- The claim's notion of belonging to the fixed upstream host, following
the spec's words: `anime1.me` itself or a host within it (a subdomain
`*.anime1.me`). -/
def isUpstreamHostSpec (h : String) : Bool :=
  h == MAIN_HOST || strEndsWith h ("." ++ MAIN_HOST)

/-- Counterexample to C4 as stated: host `xanime1.me` is neither the fixed
upstream host nor a host within it, yet `parse_url` does not fail with
`InvalidUrl`: the suffix check `hostname.endswith("anime1.me")` passes, the
page fetch is reached (network I/O) and the outcome is determined by the
fetch. -/
theorem parse_url_suffix_host_cex :
    isUpstreamHostSpec "xanime1.me" = false
    ∧ (parse_url (some "xanime1.me") none).2 = true
    ∧ (parse_url (some "xanime1.me") none).1 = .error .unknownUrlType :=
  ⟨rfl, rfl, rfl⟩

/-- C4 (amended): `parse_url` fails with `InvalidUrl` and performs no
network I/O exactly when the URL's hostname is absent or does not end with
the string `anime1.me`; any hostname with that suffix (including hosts
like `xanime1.me` that are outside the upstream domain) proceeds to the
page fetch. -/
theorem parse_url_invalid_host (hostname : Option String)
    (fetch : Option (VideoCategory ⊕ VideoPost)) :
    ((∀ h, hostname = some h → strEndsWith h MAIN_HOST = false) →
      parse_url hostname fetch = (.error .invalidUrl, false))
    ∧ (∀ h, hostname = some h → strEndsWith h MAIN_HOST = true →
      (parse_url hostname fetch).2 = true) := by
  constructor
  · intro hno
    cases hostname with
    | none => rfl
    | some h =>
      have hh := hno h rfl
      simp [parse_url, is_valid_posts_url, hh]
  · intro h hh hend
    subst hh
    simp only [parse_url, is_valid_posts_url, hend, if_true]
    cases fetch <;> rfl

/-- Witness for C4 (amended) at concrete inputs: `example.com` is rejected
with no fetch; `anime1.me` itself reaches the fetch. -/
theorem parse_url_invalid_host_witness :
    parse_url (some "example.com") none = (.error .invalidUrl, false)
    ∧ (parse_url (some "anime1.me") none).2 = true :=
  ⟨(parse_url_invalid_host (some "example.com") none).1
      (by
        intro h hh
        injection hh with h2
        subst h2
        decide),
   (parse_url_invalid_host (some "anime1.me") none).2 "anime1.me" rfl (by decide)⟩

/-- `Anime1API._USER_AGENT` (src/main.py line 75). -/
def USER_AGENT : String :=
  "Mozilla/5.0 (Windows NT 10.0; Win64; x64) AppleWebKit/537.36 (KHTML, like Gecko) Chrome/118.0.0.0 Safari/537.36"

/-- The fixed part of the headers dict built by `_get_video_headers`. -/
def base_video_headers : List (String × String) :=
  [ ("Accept", "*/*")
  , ("Accept-Encoding", "identity;q=1, *;q=0")
  , ("Accept-Language", "zh-CN,zh;q=0.9,en;q=0.8")
  , ("Referer", "https://anime1.me/")
  , ("User-Agent", USER_AGENT) ]

/-- `Anime1API._get_video_headers` (src/main.py lines 123-137): `Range`
(plus `Connection: keep-alive`) is added when `bytes_range` is present, and
`If-Range` is added only inside that branch, i.e. only when `bytes_range`
is also present. -/
def get_video_headers (bytes_range bytes_if_range : Option String) :
    List (String × String) :=
  base_video_headers ++
    (match bytes_range with
     | none => []
     | some r =>
       [("Range", r), ("Connection", "keep-alive")] ++
         (match bytes_if_range with
          | none => []
          | some ir => [("If-Range", ir)]))

/-- `Anime1API._get_video_headers` of src/fastapi_impl/main.py lines 85-98:
the two headers are added by independent `if`s. -/
def get_video_headers_fastapi (bytes_range bytes_if_range : Option String) :
    List (String × String) :=
  base_video_headers ++
    (match bytes_range with
     | none => []
     | some r => [("Range", r)]) ++
    (match bytes_if_range with
     | none => []
     | some ir => [("If-Range", ir)])

/-- Counterexample to C5 as stated: with no inbound `Range` header but an
inbound `If-Range` header, the upstream request built by src/main.py
carries no `If-Range` header at all. -/
theorem video_headers_if_range_cex :
    List.lookup "If-Range" (get_video_headers none (some "etag-123")) = none :=
  rfl

/-- C5 (amended): `Range` is forwarded verbatim exactly when present, in
both implementations.  `If-Range` is forwarded verbatim exactly when both
`If-Range` and `Range` are present in the aiohttp implementation (which
then also adds `Connection: keep-alive`), while the FastAPI implementation
forwards `If-Range` independently of `Range`. -/
theorem video_headers_forwarding (r ir : Option String) :
    List.lookup "Range" (get_video_headers r ir) = r
    ∧ List.lookup "If-Range" (get_video_headers r ir)
        = (match r with | some _ => ir | none => none)
    ∧ List.lookup "Connection" (get_video_headers r ir)
        = (match r with | some _ => some "keep-alive" | none => none)
    ∧ List.lookup "Range" (get_video_headers_fastapi r ir) = r
    ∧ List.lookup "If-Range" (get_video_headers_fastapi r ir) = ir := by
  cases r <;> cases ir <;> exact ⟨rfl, rfl, rfl, rfl, rfl⟩

/-- The response-header allow-list of `Anime1API.open_video` (src/main.py
line 299) and of the fastapi `video` endpoint (line 474). -/
def RESPONSE_HEADER_KEYS : List String :=
  ["Content-Length", "Content-Range", "Etag", "Last-Modified"]

/-- The dict comprehension
`{k: response.headers[k] for k in [...] if k in response.headers}`: the
restriction of the upstream headers to the allow-list, in allow-list
order. -/
def restrictHeaders (upstream : List (String × String)) : List (String × String) :=
  RESPONSE_HEADER_KEYS.filterMap
    (fun k => (List.lookup k upstream).map (fun v => (k, v)))

/-- The headers `Anime1API.open_video` (src/main.py lines 294-310) exposes
in `RemoteVideo`: after the comprehension it sets
`headers["X-Forwarded-For"] = video.url`. -/
def open_video_headers (upstream : List (String × String)) (videoUrl : String) :
    List (String × String) :=
  restrictHeaders upstream ++ [("X-Forwarded-For", videoUrl)]

/-- The headers the fastapi `video` endpoint (src/fastapi_impl/main.py
lines 472-476) passes to `StreamingResponse`: exactly the restriction. -/
def video_endpoint_headers_fastapi (upstream : List (String × String)) :
    List (String × String) :=
  restrictHeaders upstream

/-- Counterexample to C6 as stated: even with no upstream headers at all,
the header map exposed by `open_video` contains `X-Forwarded-For` (set to
the backing URL), a header outside the allow-list. -/
theorem open_video_extra_header_cex :
    open_video_headers [] "https://v.anime1.me/x.mp4"
      = [("X-Forwarded-For", "https://v.anime1.me/x.mp4")]
    ∧ ¬ "X-Forwarded-For" ∈ RESPONSE_HEADER_KEYS :=
  ⟨rfl, by decide⟩

/-- C6 (amended): the exposed header map of the aiohttp `open_video` is the
allow-list restriction of the upstream headers plus the single extra pair
`X-Forwarded-For: backing URL`; the FastAPI variant exposes exactly the
allow-list restriction: an allow-listed pair is exposed iff the upstream
carries it, and nothing else is exposed. -/
theorem open_video_header_allowlist (upstream : List (String × String)) (url : String) :
    (∀ k v, (k, v) ∈ open_video_headers upstream url ↔
      ((k ∈ RESPONSE_HEADER_KEYS ∧ List.lookup k upstream = some v)
        ∨ (k = "X-Forwarded-For" ∧ v = url)))
    ∧ (∀ k v, (k, v) ∈ video_endpoint_headers_fastapi upstream ↔
      (k ∈ RESPONSE_HEADER_KEYS ∧ List.lookup k upstream = some v)) := by
  have hrestrict : ∀ k v, (k, v) ∈ restrictHeaders upstream ↔
      (k ∈ RESPONSE_HEADER_KEYS ∧ List.lookup k upstream = some v) := by
    intro k v
    simp only [restrictHeaders, List.mem_filterMap, Option.map_eq_some']
    constructor
    · rintro ⟨a, ha, w, hw, heq⟩
      injection heq with h1 h2
      subst h1
      subst h2
      exact ⟨ha, hw⟩
    · rintro ⟨hk, hv⟩
      exact ⟨k, hk, v, hv, rfl⟩
  constructor
  · intro k v
    rw [open_video_headers, List.mem_append]
    rw [hrestrict]
    simp
  · intro k v
    exact hrestrict k v

/-- Python `base_uri.rstrip("/")`: drop every trailing `/`. -/
def rstripSlash (s : String) : String :=
  String.mk ((s.data.reverse.dropWhile (fun c => c == '/')).reverse)

/-- `Anime1Server._build_m3u8` (src/main.py lines 343-350, identical in
src/fastapi_impl/main.py lines 254-261): start from `#EXTM3U`, then for
each post append the `#EXTINF` line and the `{base_uri}/v/{post_id}`
line. -/
def build_m3u8 (base_uri : String) (category : VideoCategory) : String :=
  let b := rstripSlash base_uri
  category.posts.foldl
    (fun content post =>
      content ++ "#EXTINF:-1," ++ post.title ++ "\n"
        ++ b ++ "/v/" ++ post.post_id ++ "\n")
    ("#EXTM3U" ++ "\n")

/-- Concatenation of a list of strings, used to state what the builder
loops produce (one block per post, in sequence order). -/
def concatLines (l : List String) : String :=
  l.foldr (fun s acc => s ++ acc) ""

theorem foldl_append_concatLines (f : VideoPost → String) (l : List VideoPost)
    (init : String) :
    l.foldl (fun acc p => acc ++ f p) init = init ++ concatLines (l.map f) := by
  induction l generalizing init with
  | nil => simp [concatLines]
  | cons p rest ih =>
    simp only [List.foldl_cons, List.map_cons, concatLines, List.foldr_cons]
    rw [ih (init ++ f p), String.append_assoc]
    rfl

/-- C7: for every category and every base URI (already normalized, i.e.
carrying no trailing slash, as the routers guarantee via
`str(request.base_url).rstrip("/")`), the M3U8 body is `#EXTM3U` followed
by exactly one `#EXTINF`/URI pair per post, in sequence order, with each
URI equal to `{base_uri}/v/{post_id}` of the corresponding post. -/
theorem build_m3u8_pairs (base_uri : String) (category : VideoCategory)
    (h : rstripSlash base_uri = base_uri) :
    build_m3u8 base_uri category
      = "#EXTM3U\n" ++ concatLines (category.posts.map (fun post =>
          "#EXTINF:-1," ++ post.title ++ "\n"
            ++ (base_uri ++ "/v/" ++ post.post_id) ++ "\n")) := by
  rw [build_m3u8]
  simp only [h]
  have hbody : (fun (content : String) (post : VideoPost) =>
        content ++ "#EXTINF:-1," ++ post.title ++ "\n"
          ++ base_uri ++ "/v/" ++ post.post_id ++ "\n")
      = (fun (content : String) (post : VideoPost) =>
        content ++ ("#EXTINF:-1," ++ post.title ++ "\n"
          ++ (base_uri ++ "/v/" ++ post.post_id) ++ "\n")) := by
    funext content post
    simp [String.append_assoc]
  rw [hbody, foldl_append_concatLines]
  rfl

/-- A small demo category used as witness input. -/
def demoCategory : VideoCategory :=
  { category_id := "77", title := "Demo Show", posts := [demoPostOrd1, demoPostOrd2] }

/-- Witness for C7 at a concrete input: a two-post category against a
normalized base URI. -/
theorem build_m3u8_pairs_witness :
    build_m3u8 "http://127.0.0.1:8520" demoCategory
      = "#EXTM3U\n" ++ concatLines (demoCategory.posts.map (fun post =>
          "#EXTINF:-1," ++ post.title ++ "\n"
            ++ ("http://127.0.0.1:8520" ++ "/v/" ++ post.post_id) ++ "\n")) :=
  build_m3u8_pairs "http://127.0.0.1:8520" demoCategory (by decide)

/-- `Anime1Server._build_dpl` (src/main.py lines 353-362).  Note the file
line uses `post.category_id`. -/
def build_dpl (base_uri : String) (category : VideoCategory) : String :=
  let b := rstripSlash base_uri
  category.posts.enum.foldl
    (fun content ip =>
      content ++ Nat.repr (ip.1 + 1) ++ "*title*" ++ ip.2.title ++ "\n"
        ++ Nat.repr (ip.1 + 1) ++ "*file*" ++ b ++ "/v/" ++ ip.2.category_id ++ "\n")
    ("DAUMPLAYLIST" ++ "\n" ++ "topindex=0" ++ "\n" ++ "saveplaypos=0" ++ "\n")

/-- `Anime1Server._build_dpl` of src/fastapi_impl/main.py (lines 264-273):
the file line uses `post.post_id`. -/
def build_dpl_fastapi (base_uri : String) (category : VideoCategory) : String :=
  let b := rstripSlash base_uri
  category.posts.enum.foldl
    (fun content ip =>
      content ++ Nat.repr (ip.1 + 1) ++ "*title*" ++ ip.2.title ++ "\n"
        ++ Nat.repr (ip.1 + 1) ++ "*file*" ++ b ++ "/v/" ++ ip.2.post_id ++ "\n")
    ("DAUMPLAYLIST" ++ "\n" ++ "topindex=0" ++ "\n" ++ "saveplaypos=0" ++ "\n")

/-- Demo post whose post id (`111`) differs from its category id (`999`). -/
def dplDemoPost : VideoPost :=
  { post_id := "111", title := "EP1", order := some 1, datetime := "d"
  , category_id := "999", video_id := "v", thumbnails_server := "t"
  , api_data := "a", next_post_id := none }

/-- Demo category for the DPL builders. -/
def dplDemoCategory : VideoCategory :=
  { category_id := "999", title := "Show", posts := [dplDemoPost] }

/-- C8 evaluated at the failing input: for the post with id `111` in
category `999`, the aiohttp `_build_dpl` emits `1*file*http://h/v/999`,
the post's *category* id, not the claimed `1*file*http://h/v/111` with the
post's own id — which is exactly what the fastapi variant of the same
builder emits. -/
theorem build_dpl_uses_category_id :
    build_dpl "http://h" dplDemoCategory
      = "DAUMPLAYLIST\ntopindex=0\nsaveplaypos=0\n1*title*EP1\n1*file*http://h/v/999\n"
    ∧ build_dpl_fastapi "http://h" dplDemoCategory
      = "DAUMPLAYLIST\ntopindex=0\nsaveplaypos=0\n1*title*EP1\n1*file*http://h/v/111\n"
    ∧ dplDemoPost.post_id ≠ dplDemoPost.category_id :=
  ⟨rfl, rfl, by decide⟩

/-- The fields of a fetched HTML document that `get_video_posts` and the
extraction helpers read (via BeautifulSoup): the `class` list of the
`body` element, the `article` blocks in document order (already reduced to
their extracted `VideoPost` fields), the category id matched inside the
first inline script, and the page-header title. -/
structure Soup where
  bodyClasses : List String
  articles : List VideoPost
  scriptCategoryId : String
  pageTitle : String
deriving DecidableEq, Repr

/-- `Anime1API._is_category` (src/main.py lines 189-192):
`"category" in body["class"]`. -/
def is_category (s : Soup) : Bool :=
  s.bodyClasses.contains "category"

/-- `Anime1API._is_single_post` (src/main.py lines 194-197):
`"single-post" in body["class"]`. -/
def is_single_post (s : Soup) : Bool :=
  s.bodyClasses.contains "single-post"

/-- `Anime1API._parse_category` (src/main.py lines 199-211). -/
def parse_category (s : Soup) : VideoCategory :=
  { category_id := s.scriptCategoryId
  , title := s.pageTitle
  , posts := parse_video_posts s.articles }

/-- `Anime1API._parse_single_post` (src/main.py lines 213-216):
`posts[0] if len(posts) > 0 else None`. -/
def parse_single_post (s : Soup) : Option VideoPost :=
  (parse_video_posts s.articles).head?

/-- `Anime1API.get_video_posts` (src/main.py lines 226-234, identical in
src/fastapi_impl/main.py lines 173-181) after the page fetch: classify and
extract.  `Sum.inl` is the `VideoCategory` outcome, `Sum.inr` the
`VideoPost` outcome, `none` the unrecognized page. -/
def get_video_posts (s : Soup) : Option (VideoCategory ⊕ VideoPost) :=
  if is_category s then some (Sum.inl (parse_category s))
  else if is_single_post s then (parse_single_post s).map Sum.inr
  else none

/-- C10: for every document whose body class list contains both the
`category` and the `single-post` markers, `get_video_posts` takes the
category branch and returns the extracted `VideoCategory`; the single-post
branch is unreachable because the category check comes first. -/
theorem get_video_posts_category_precedence (s : Soup)
    (h1 : "category" ∈ s.bodyClasses) (h2 : "single-post" ∈ s.bodyClasses) :
    get_video_posts s = some (Sum.inl (parse_category s)) := by
  have hc : is_category s = true := by
    rw [is_category]
    exact List.elem_iff.mpr h1
  simp [get_video_posts, hc]

/-- A document carrying both body-class markers. -/
def demoBothSoup : Soup :=
  { bodyClasses := ["archive", "category", "single-post"]
  , articles := [demoPostOrd1]
  , scriptCategoryId := "77"
  , pageTitle := "Demo" }

/-- Witness for C10 at a concrete document with both markers. -/
theorem get_video_posts_category_precedence_witness :
    get_video_posts demoBothSoup = some (Sum.inl (parse_category demoBothSoup)) :=
  get_video_posts_category_precedence demoBothSoup (by decide) (by decide)

end Anime1
